import Mathlib

/-!
Verification of the automated-trading scheduling/execution-synchronization core
of the DEBT trading platform.

The embedding follows `portfolio/n8n_integration.py` (eligibility gates,
reconciliation, maintenance) and `portfolio/auto_trading_views.py` (signal
generation).  The Django model classes (`auto_trading_models.py`) and the
dispatcher `send_signal_to_n8n` are not among the sources — only their callers
are — so the record types and the dispatcher are modelled from the spec's data
model (§3) and §4.3, as marked on each such definition.

Timestamps are seconds since an epoch (`Nat`); a calendar day is `t / 86400`
and a time-of-day is `t % 86400`.  Decimal quantities are rationals.
-/

/-- Modelled from the spec: the `status` choices of the `AutoTradingSignal`
Django model (`auto_trading_models.py` is absent from the sources; the string
literals PENDING/SENT/EXECUTED/FAILED appear throughout the callers and in
spec §3). -/
inductive SignalStatus where
  | PENDING
  | SENT
  | EXECUTED
  | FAILED
deriving DecidableEq, Repr

/-- Modelled from the spec: audit-log severity levels of `AutoTradingLog`
(spec §3: level ∈ {DEBUG, INFO, WARN, ERROR}; the callers use the string
literals DEBUG/INFO/ERROR). -/
inductive LogLevel where
  | DEBUG
  | INFO
  | WARN
  | ERROR
deriving DecidableEq, Repr

/-- The payload of N8N's execution-status endpoint as read by
`sync_n8n_executions`: `execution_data.get('finished', False)`,
`execution_data.get('success', False)`, `execution_data.get('error', ...)`. -/
structure ExecData where
  finished : Bool
  success : Bool
  error : Option String
deriving DecidableEq, Repr

/-- Modelled from the spec: the `AutoTradingSignal` model
(`auto_trading_models.py` is absent from the sources).  Fields are those
read and written by `generate_strategy_signals`, `sync_n8n_executions` and
spec §3; `retry_count` is the dispatch retry counter of spec §4.3. -/
structure AutoTradingSignal where
  id : Nat
  symbol : String
  signal_type : String
  confidence : String
  confidence_score : ℚ
  target_price : ℚ
  quantity : ℚ
  status : SignalStatus
  n8n_execution_id : Option Nat
  execution_response : Option ExecData
  error_message : Option String
  created_at : Nat
  executed_at : Option Nat
  retry_count : Nat
deriving DecidableEq, Repr

/-- Modelled from the spec: the `AutoTradingStrategy` model
(`auto_trading_models.py` is absent from the sources).  Fields are those the
callers read (`status`, `symbols`, `max_daily_trades`, `last_executed`)
plus `cooldown_seconds` from spec §3 (≥0, default 300). -/
structure AutoTradingStrategy where
  id : Nat
  status : String
  symbols : List String
  max_daily_trades : Nat
  cooldown_seconds : Nat
  last_executed : Option Nat
deriving DecidableEq, Repr

/-- Modelled from the spec: the `TradingBotConfiguration` model
(`auto_trading_models.py` is absent from the sources).  Fields are those
`should_execute_strategy` and `is_trading_hours` read; times are
seconds-of-day. -/
structure TradingBotConfiguration where
  is_enabled : Bool
  trading_start_time : Nat
  trading_end_time : Nat
deriving DecidableEq, Repr

/-- Modelled from the spec: the `AutoTradingLog` model
(`auto_trading_models.py` is absent from the sources).  Fields are those
`cleanup_old_logs` filters on plus the payload fields the callers write. -/
structure AutoTradingLog where
  id : Nat
  level : LogLevel
  category : String
  message : String
  timestamp : Nat
deriving DecidableEq, Repr

/-! ## TradingScheduler (n8n_integration.py) -/

/-- `TradingScheduler.is_trading_hours`: with a bot configuration, the window
is the configured one; without, it defaults to 09:00:00–16:00:00.  The check
is `start_time <= current_time <= end_time`, inclusive on both bounds.
`tod` is the current time-of-day in seconds. -/
def is_trading_hours (bot_config : Option TradingBotConfiguration) (tod : Nat) : Bool :=
  match bot_config with
  | some c => decide (c.trading_start_time ≤ tod) && decide (tod ≤ c.trading_end_time)
  | none => decide (9 * 3600 ≤ tod) && decide (tod ≤ 16 * 3600)

/-- The Django count `strategy.signals.filter(created_at__date=today,
status__in=['EXECUTED', 'SENT']).count()` from `should_execute_strategy`. -/
def todaySignalsCount (sigs : List AutoTradingSignal) (today : Nat) : Nat :=
  (sigs.filter (fun s =>
    s.created_at / 86400 == today &&
      (s.status == SignalStatus.EXECUTED || s.status == SignalStatus.SENT))).length

/-- `TradingScheduler.should_execute_strategy`: early-returns `False` when the
strategy is not ACTIVE; when the owner has no `TradingBotConfiguration`
(`DoesNotExist`, the `none` case) or it is disabled; outside trading hours;
when today's SENT/EXECUTED signal count reaches `max_daily_trades`; or when
less than a hard-coded 5 minutes (300 s) elapsed since `last_executed`. -/
def should_execute_strategy (strat : AutoTradingStrategy)
    (cfg : Option TradingBotConfiguration) (sigs : List AutoTradingSignal)
    (now : Nat) : Bool :=
  if strat.status ≠ "ACTIVE" then false
  else
    match cfg with
    | none => false
    | some c =>
      if !c.is_enabled then false
      else if !is_trading_hours (some c) (now % 86400) then false
      else if todaySignalsCount sigs (now / 86400) ≥ strat.max_daily_trades then false
      else
        match strat.last_executed with
        | some t => if now - t < 300 then false else true
        | none => true

/-! ## ReconciliationLoop (`sync_n8n_executions`) -/

/-- The error message stored on a failed execution:
`execution_data.get('error', 'N8N execution failed')`. -/
def extractError (d : ExecData) : String :=
  d.error.getD "N8N execution failed"

/-- The update `sync_n8n_executions` applies to one signal given the execution
data N8N returned: if `finished`, move to EXECUTED (setting `executed_at`) on
`success` and to FAILED (setting `error_message`) otherwise, storing the
response either way; if not finished, no change. -/
def applyExecution (now : Nat) (d : ExecData) (s : AutoTradingSignal) :
    AutoTradingSignal :=
  if d.finished then
    if d.success then
      { s with status := SignalStatus.EXECUTED
               executed_at := some now
               execution_response := some d }
    else
      { s with status := SignalStatus.FAILED
               error_message := some (extractError d)
               execution_response := some d }
  else s

/-- One signal's pass through `sync_n8n_executions`: the queryset selects
signals with `status='SENT'` and a non-null `n8n_execution_id`; any other
signal is untouched.  `get eid = none` models `get_execution_status`
returning `None` (it catches every exception) or a falsy payload, in which
case nothing changes. -/
def syncOne (get : Nat → Option ExecData) (now : Nat) (s : AutoTradingSignal) :
    AutoTradingSignal :=
  match s.status, s.n8n_execution_id with
  | SignalStatus.SENT, some eid =>
    match get eid with
    | some d => applyExecution now d s
    | none => s
  | _, _ => s

/-- The `sync_n8n_executions` task over the signal table: each selected signal
is polled and updated independently (a per-signal exception is caught and the
loop continues). -/
def sync_n8n_executions (get : Nat → Option ExecData) (now : Nat)
    (sigs : List AutoTradingSignal) : List AutoTradingSignal :=
  sigs.map (syncOne get now)

/-! ## SignalGenerator (`generate_strategy_signals`, auto_trading_views.py) -/

/-- Outcome of the body of one iteration of `generate_strategy_signals`'s
symbol loop: the `Stock` row is found, `Stock.DoesNotExist` is raised, or
some other exception is raised (timeout, creation failure, ...). -/
inductive SymbolOutcome where
  | ok (stock_symbol : String)
  | missing
  | err (msg : String)
deriving DecidableEq, Repr

/-- The signal row `generate_strategy_signals` creates for a found stock:
`signal_type='BUY'`, `confidence='HIGH'`, `confidence_score=85.0`,
`target_price=100.0`, `quantity=10.0`; every other field takes the model
default (status PENDING per spec §3, nothing dispatched or executed yet). -/
def mkSignal (id : Nat) (sym : String) (now : Nat) : AutoTradingSignal :=
  { id := id
    symbol := sym
    signal_type := "BUY"
    confidence := "HIGH"
    confidence_score := 85
    target_price := 100
    quantity := 10
    status := SignalStatus.PENDING
    n8n_execution_id := none
    execution_response := none
    error_message := none
    created_at := now
    executed_at := none
    retry_count := 0 }

/-- The symbol loop of `generate_strategy_signals`: `Stock.DoesNotExist` is
caught by the inner handler and the loop continues with the next symbol; any
other exception escapes to the function's outer handler, which logs and
returns what was generated so far — the remaining symbols are not tried. -/
def generateGo (lookup : String → SymbolOutcome) (now : Nat) :
    List String → Nat → List AutoTradingSignal
  | [], _ => []
  | sym :: rest, id =>
    match lookup sym with
    | SymbolOutcome.ok _ => mkSignal id sym now :: generateGo lookup now rest (id + 1)
    | SymbolOutcome.missing => generateGo lookup now rest id
    | SymbolOutcome.err _ => []

/-- `generate_strategy_signals`: iterates `strategy.symbols[:5]` and creates
one BUY signal per symbol whose `Stock` row exists. -/
def generate_strategy_signals (lookup : String → SymbolOutcome)
    (strat : AutoTradingStrategy) (now fresh : Nat) : List AutoTradingSignal :=
  generateGo lookup now (strat.symbols.take 5) fresh

/-! ## process_active_strategies (n8n_integration.py) -/

/-- The per-strategy body of `process_active_strategies`: if the scheduler
gates pass, generate signals and advance `last_executed` to now; each
strategy's body runs under its own exception handler, so the result for one
strategy is a function of that strategy alone. -/
def processStrategy (lookup : String → SymbolOutcome)
    (cfg : Option TradingBotConfiguration)
    (sigsOf : Nat → List AutoTradingSignal) (now : Nat)
    (strat : AutoTradingStrategy) :
    AutoTradingStrategy × List AutoTradingSignal :=
  if should_execute_strategy strat cfg (sigsOf strat.id) now then
    ({ strat with last_executed := some now },
      generate_strategy_signals lookup strat now 0)
  else (strat, [])

/-- The `process_active_strategies` task: filters ACTIVE strategies and
processes each independently. -/
def process_active_strategies (lookup : String → SymbolOutcome)
    (cfg : Option TradingBotConfiguration)
    (sigsOf : Nat → List AutoTradingSignal) (now : Nat)
    (strats : List AutoTradingStrategy) :
    List (AutoTradingStrategy × List AutoTradingSignal) :=
  (strats.filter (fun st => st.status == "ACTIVE")).map
    (processStrategy lookup cfg sigsOf now)

/-! ## MaintenanceJobs (`cleanup_old_logs`) -/

/-- `cleanup_old_logs`: deletes `AutoTradingLog` rows with
`timestamp__lt = now - 30 days` and `level__in = ['DEBUG', 'INFO']`; the
returned list is the table after the deletion. -/
def cleanup_old_logs (now : Nat) (logs : List AutoTradingLog) :
    List AutoTradingLog :=
  logs.filter (fun e =>
    !(decide (e.timestamp < now - 30 * 86400) &&
      (e.level == LogLevel.DEBUG || e.level == LogLevel.INFO)))

/-! ## ExecutionDispatcher (modelled) -/

/-- The outcome of one call to the external engine's trigger endpoint:
a success response carrying an execution identifier, or a failure
(timeout, non-success response, network error). -/
inductive DispatchResult where
  | success (execution_id : Nat)
  | failure (msg : String)
deriving DecidableEq, Repr

/-- Modelled from the spec: `send_signal_to_n8n` (the ExecutionDispatcher) is
imported by `n8n_integration.py` from `auto_trading_views` but is not defined
in the sources.  Spec §4.3: only a PENDING signal is dispatched; on success
the execution id is stored and the signal moves PENDING→SENT; on failure the
retry counter is incremented and, once it reaches the configured bound
`maxRetries`, the signal moves PENDING→FAILED with `error_message`
populated; otherwise it stays PENDING. -/
def dispatchSignal (maxRetries : Nat) (res : DispatchResult)
    (s : AutoTradingSignal) : AutoTradingSignal :=
  match s.status with
  | SignalStatus.PENDING =>
    match res with
    | DispatchResult.success eid =>
      { s with status := SignalStatus.SENT, n8n_execution_id := some eid }
    | DispatchResult.failure msg =>
      if s.retry_count + 1 ≥ maxRetries then
        { s with status := SignalStatus.FAILED
                 error_message := some msg
                 retry_count := s.retry_count + 1 }
      else
        { s with retry_count := s.retry_count + 1 }
  | _ => s

/-! ## The signal state machine -/

/-- One core operation applied to an existing signal.  Signal generation only
creates fresh rows and never mutates an existing signal, so the mutating
operations are a dispatch attempt and a reconciliation pass. -/
inductive CoreOp where
  | dispatch (maxRetries : Nat) (res : DispatchResult)
  | reconcile (get : Nat → Option ExecData) (now : Nat)

/-- Apply one core operation to a signal. -/
def applyOp : CoreOp → AutoTradingSignal → AutoTradingSignal
  | CoreOp.dispatch m r, s => dispatchSignal m r s
  | CoreOp.reconcile get now, s => syncOne get now s

/-- Apply a sequence of core operations to a signal, oldest first. -/
def applySeq (ops : List CoreOp) (s : AutoTradingSignal) : AutoTradingSignal :=
  ops.foldl (fun t op => applyOp op t) s

/-- Position of a status along PENDING→SENT→{EXECUTED, FAILED}. -/
def rank : SignalStatus → Nat
  | SignalStatus.PENDING => 0
  | SignalStatus.SENT => 1
  | SignalStatus.EXECUTED => 2
  | SignalStatus.FAILED => 2

/-- The edges of the signal state machine (spec §4.6): dispatch success,
dispatch exhausted retries, reconcile success, reconcile failure. -/
def validEdge : SignalStatus → SignalStatus → Prop
  | SignalStatus.PENDING, SignalStatus.SENT => True
  | SignalStatus.PENDING, SignalStatus.FAILED => True
  | SignalStatus.SENT, SignalStatus.EXECUTED => True
  | SignalStatus.SENT, SignalStatus.FAILED => True
  | _, _ => False

/-! ## Helper lemmas -/

/-- A default-window configuration with the 09:00–16:00 trading hours. -/
def defaultWindowCfg : TradingBotConfiguration :=
  { is_enabled := true, trading_start_time := 9 * 3600, trading_end_time := 16 * 3600 }

lemma is_trading_hours_some (c : TradingBotConfiguration) (tod : Nat) :
    is_trading_hours (some c) tod = true ↔
      c.trading_start_time ≤ tod ∧ tod ≤ c.trading_end_time := by
  simp [is_trading_hours]

/-! ## The claims -/

/-- C7: the trading-hours gate passes exactly when the time-of-day lies within
[trading_start_time, trading_end_time], inclusive on both bounds; with the
09:00–16:00 window it fails at 08:59:00, passes at 09:00:00 and at 16:00:00,
and fails at 16:01:00. -/
theorem C7_trading_hours_inclusive :
    (∀ (c : TradingBotConfiguration) (tod : Nat),
      is_trading_hours (some c) tod = true ↔
        c.trading_start_time ≤ tod ∧ tod ≤ c.trading_end_time) ∧
    is_trading_hours (some defaultWindowCfg) (8 * 3600 + 59 * 60) = false ∧
    is_trading_hours (some defaultWindowCfg) (9 * 3600) = true ∧
    is_trading_hours (some defaultWindowCfg) (16 * 3600) = true ∧
    is_trading_hours (some defaultWindowCfg) (16 * 3600 + 60) = false := by
  refine ⟨is_trading_hours_some, ?_, ?_, ?_, ?_⟩ <;> decide

/-- C9: log cleanup keeps exactly the audit entries that are not both older
than the 30-day retention cutoff and of low severity; equivalently, an entry
survives iff it was in the table and is either within the retention window or
of level WARN or ERROR, and every DEBUG/INFO entry older than the cutoff is
removed. -/
theorem C9_cleanup_retention (now : Nat) (logs : List AutoTradingLog)
    (e : AutoTradingLog) :
    e ∈ cleanup_old_logs now logs ↔
      e ∈ logs ∧
        (¬ e.timestamp < now - 30 * 86400 ∨
          e.level = LogLevel.WARN ∨ e.level = LogLevel.ERROR) := by
  simp only [cleanup_old_logs, List.mem_filter, Bool.not_eq_true', and_congr_right_iff]
  intro _
  cases e.level <;> simp_all

/-- C5: whenever today's count of SENT/EXECUTED signals for a strategy has
reached `max_daily_trades`, the eligibility decision is false, whatever the
other gates say. -/
theorem C5_daily_limit (strat : AutoTradingStrategy)
    (cfg : Option TradingBotConfiguration) (sigs : List AutoTradingSignal)
    (now : Nat)
    (h : todaySignalsCount sigs (now / 86400) ≥ strat.max_daily_trades) :
    should_execute_strategy strat cfg sigs now = false := by
  unfold should_execute_strategy
  repeat' split
  all_goals rfl

/-- An eligible ACTIVE strategy today: witness data for C5. -/
def exStratC5 : AutoTradingStrategy :=
  { id := 1, status := "ACTIVE", symbols := ["AAPL"], max_daily_trades := 2,
    cooldown_seconds := 300, last_executed := none }

/-- Two SENT/EXECUTED signals created on day 100: witness data for C5. -/
def exSigsC5 : List AutoTradingSignal :=
  [ { mkSignal 1 "AAPL" (100 * 86400 + 3600) with status := SignalStatus.EXECUTED },
    { mkSignal 2 "AAPL" (100 * 86400 + 7200) with status := SignalStatus.SENT } ]

theorem C5_daily_limit_witness :
    should_execute_strategy exStratC5 (some defaultWindowCfg) exSigsC5
      (100 * 86400 + 12 * 3600) = false :=
  C5_daily_limit exStratC5 (some defaultWindowCfg) exSigsC5
    (100 * 86400 + 12 * 3600) (by decide)

lemma should_execute_true_iff (strat : AutoTradingStrategy)
    (c : TradingBotConfiguration) (sigs : List AutoTradingSignal) (now : Nat) :
    should_execute_strategy strat (some c) sigs now = true ↔
      strat.status = "ACTIVE" ∧ c.is_enabled = true ∧
      is_trading_hours (some c) (now % 86400) = true ∧
      todaySignalsCount sigs (now / 86400) < strat.max_daily_trades ∧
      (∀ t, strat.last_executed = some t → 300 ≤ now - t) := by
  unfold should_execute_strategy
  cases hle : strat.last_executed with
  | none => repeat' split <;> simp_all
  | some t => repeat' split <;> simp_all

/-- A reference instant: noon of day 100. -/
def exNowC6 : Nat := 100 * 86400 + 12 * 3600

/-- An ACTIVE strategy whose configured cooldown is 600 s and whose last
execution was 360 s ago: counterexample data for C6. -/
def exStratC6 : AutoTradingStrategy :=
  { id := 2, status := "ACTIVE", symbols := ["AAPL"], max_daily_trades := 5,
    cooldown_seconds := 600, last_executed := some (exNowC6 - 360) }

/-- C6 counterexample: with a configured `cooldown_seconds` of 600 and
`last_executed = now − 360 s` (all other gates passing), the eligibility
decision returns true even though now − last_executed < cooldown_seconds:
the code compares against a hard-coded 5 minutes, not the configured
cooldown. -/
theorem C6_counterexample :
    should_execute_strategy exStratC6 (some defaultWindowCfg) [] exNowC6 = true ∧
    exStratC6.last_executed = some (exNowC6 - 360) ∧
    exStratC6.cooldown_seconds = 600 ∧
    ¬ 600 ≤ exNowC6 - (exNowC6 - 360) := by
  refine ⟨?_, rfl, rfl, ?_⟩ <;> decide

/-- C6 (amended): when `last_executed` is set, the eligibility decision
returns true only if now − last_executed ≥ 300 s — a hard-coded five-minute
minimum, independent of the strategy's configured `cooldown_seconds` — and
conversely it returns true whenever all other gates hold and
now − last_executed ≥ 300 s; hence last_executed = now−180 s yields false and
last_executed = now−360 s yields true when the other gates hold. -/
theorem C6_cooldown_hardcoded_300 (strat : AutoTradingStrategy)
    (c : TradingBotConfiguration) (sigs : List AutoTradingSignal)
    (now t : Nat) (hle : strat.last_executed = some t) :
    (should_execute_strategy strat (some c) sigs now = true → 300 ≤ now - t) ∧
    (strat.status = "ACTIVE" → c.is_enabled = true →
      is_trading_hours (some c) (now % 86400) = true →
      todaySignalsCount sigs (now / 86400) < strat.max_daily_trades →
      300 ≤ now - t →
      should_execute_strategy strat (some c) sigs now = true) := by
  constructor
  · intro h
    exact ((should_execute_true_iff strat c sigs now).mp h).2.2.2.2 t hle
  · intro h1 h2 h3 h4 h5
    refine (should_execute_true_iff strat c sigs now).mpr ⟨h1, h2, h3, h4, ?_⟩
    intro t2 ht2
    rw [hle] at ht2
    cases ht2
    exact h5

/-- An ACTIVE strategy last executed 360 s before `exNowC6`: witness data
for C6. -/
def exStratC6w : AutoTradingStrategy :=
  { id := 3, status := "ACTIVE", symbols := ["AAPL"], max_daily_trades := 5,
    cooldown_seconds := 300, last_executed := some (exNowC6 - 360) }

theorem C6_cooldown_hardcoded_300_witness :
    should_execute_strategy exStratC6w (some defaultWindowCfg) [] exNowC6 = true :=
  (C6_cooldown_hardcoded_300 exStratC6w defaultWindowCfg [] exNowC6
      (exNowC6 - 360) rfl).2 rfl rfl (by decide) (by decide) (by decide)

lemma syncOne_not_sent (get : Nat → Option ExecData) (now : Nat)
    (s : AutoTradingSignal) (h : s.status ≠ SignalStatus.SENT) :
    syncOne get now s = s := by
  unfold syncOne
  cases hs : s.status <;> cases hid : s.n8n_execution_id <;> simp_all

/-- C3: one reconciliation pass maps a SENT signal with an execution id by the
external report: no data or not finished leaves the row unchanged; finished
and successful moves it to EXECUTED with `executed_at = now` and the response
stored; finished and unsuccessful moves it to FAILED with the error message
extracted from the response (and the response stored). -/
theorem C3_reconcile_mapping (get : Nat → Option ExecData) (now : Nat)
    (s : AutoTradingSignal) (eid : Nat)
    (hs : s.status = SignalStatus.SENT)
    (hid : s.n8n_execution_id = some eid) :
    (get eid = none → syncOne get now s = s) ∧
    (∀ d, get eid = some d → d.finished = false → syncOne get now s = s) ∧
    (∀ d, get eid = some d → d.finished = true → d.success = true →
      syncOne get now s =
        { s with status := SignalStatus.EXECUTED
                 executed_at := some now
                 execution_response := some d }) ∧
    (∀ d, get eid = some d → d.finished = true → d.success = false →
      syncOne get now s =
        { s with status := SignalStatus.FAILED
                 error_message := some (extractError d)
                 execution_response := some d }) := by
  refine ⟨fun hg => ?_, fun d hg hf => ?_, fun d hg hf hsu => ?_,
    fun d hg hf hsu => ?_⟩
  · simp [syncOne, hs, hid, hg]
  · simp [syncOne, applyExecution, hs, hid, hg, hf]
  · simp [syncOne, applyExecution, hs, hid, hg, hf, hsu]
  · simp [syncOne, applyExecution, hs, hid, hg, hf, hsu]

/-- A SENT signal with execution id 77: witness data for C3. -/
def exSigC3 : AutoTradingSignal :=
  { mkSignal 10 "AAPL" 0 with status := SignalStatus.SENT
                              n8n_execution_id := some 77 }

theorem C3_reconcile_mapping_witness :
    syncOne (fun _ => some ⟨true, true, none⟩) 5 exSigC3 =
      { exSigC3 with status := SignalStatus.EXECUTED
                     executed_at := some 5
                     execution_response := some ⟨true, true, none⟩ } :=
  (C3_reconcile_mapping (fun _ => some ⟨true, true, none⟩) 5 exSigC3 77
    rfl rfl).2.2.1 ⟨true, true, none⟩ rfl rfl rfl

lemma syncOne_idem (get : Nat → Option ExecData) (now1 now2 : Nat)
    (s : AutoTradingSignal) :
    syncOne get now2 (syncOne get now1 s) = syncOne get now1 s := by
  by_cases hs : s.status = SignalStatus.SENT
  · cases hid : s.n8n_execution_id with
    | none =>
      have hA : syncOne get now1 s = s := by simp [syncOne, hs, hid]
      have hB : syncOne get now2 s = s := by simp [syncOne, hs, hid]
      rw [hA, hB]
    | some eid =>
      cases hg : get eid with
      | none =>
        have hA : syncOne get now1 s = s := by simp [syncOne, hs, hid, hg]
        have hB : syncOne get now2 s = s := by simp [syncOne, hs, hid, hg]
        rw [hA, hB]
      | some d =>
        cases hf : d.finished with
        | false =>
          have hA : syncOne get now1 s = s := by
            simp [syncOne, applyExecution, hs, hid, hg, hf]
          have hB : syncOne get now2 s = s := by
            simp [syncOne, applyExecution, hs, hid, hg, hf]
          rw [hA, hB]
        | true =>
          have hA : syncOne get now1 s = applyExecution now1 d s := by
            simp [syncOne, hs, hid, hg]
          have hns : (applyExecution now1 d s).status ≠ SignalStatus.SENT := by
            simp only [applyExecution, hf]
            cases d.success <;> simp
          rw [hA]
          exact syncOne_not_sent get now2 _ hns
  · rw [syncOne_not_sent get now1 s hs, syncOne_not_sent get now2 s hs]

/-- C4: running the reconciliation pass twice, with the external engine
reporting the same execution statuses both times, leaves every signal in the
same state after the second run as after the first: signals moved to a
terminal status are no longer selected, and unfinished ones are mapped the
same way again. -/
theorem C4_reconciliation_idempotent (get : Nat → Option ExecData)
    (now1 now2 : Nat) (sigs : List AutoTradingSignal) :
    sync_n8n_executions get now2 (sync_n8n_executions get now1 sigs) =
      sync_n8n_executions get now1 sigs := by
  unfold sync_n8n_executions
  rw [List.map_map]
  congr 1
  funext s
  exact syncOne_idem get now1 now2 s

lemma dispatchSignal_not_pending (m : Nat) (r : DispatchResult)
    (s : AutoTradingSignal) (h : s.status ≠ SignalStatus.PENDING) :
    dispatchSignal m r s = s := by
  unfold dispatchSignal
  cases hs : s.status <;> simp_all

lemma dispatchSignal_status (m : Nat) (r : DispatchResult)
    (s : AutoTradingSignal) :
    (dispatchSignal m r s).status = s.status ∨
      (s.status = SignalStatus.PENDING ∧
        ((dispatchSignal m r s).status = SignalStatus.SENT ∨
         (dispatchSignal m r s).status = SignalStatus.FAILED)) := by
  by_cases hp : s.status = SignalStatus.PENDING
  · cases r with
    | success eid => exact Or.inr ⟨hp, Or.inl (by simp [dispatchSignal, hp])⟩
    | failure msg =>
      by_cases hr : s.retry_count + 1 ≥ m
      · exact Or.inr ⟨hp, Or.inr (by simp [dispatchSignal, hp, hr])⟩
      · exact Or.inl (by simp [dispatchSignal, hp, hr])
  · exact Or.inl (by rw [dispatchSignal_not_pending m r s hp])

lemma syncOne_status (get : Nat → Option ExecData) (now : Nat)
    (s : AutoTradingSignal) :
    (syncOne get now s).status = s.status ∨
      (s.status = SignalStatus.SENT ∧
        ((syncOne get now s).status = SignalStatus.EXECUTED ∨
         (syncOne get now s).status = SignalStatus.FAILED)) := by
  by_cases hsent : s.status = SignalStatus.SENT
  · cases hid : s.n8n_execution_id with
    | none => exact Or.inl (by simp [syncOne, hsent, hid])
    | some eid =>
      cases hg : get eid with
      | none => exact Or.inl (by simp [syncOne, hsent, hid, hg])
      | some d =>
        have hA : syncOne get now s = applyExecution now d s := by
          simp [syncOne, hsent, hid, hg]
        cases hf : d.finished with
        | false => exact Or.inl (by simp [hA, applyExecution, hf])
        | true =>
          refine Or.inr ⟨hsent, ?_⟩
          cases hsu : d.success with
          | true => exact Or.inl (by simp [hA, applyExecution, hf, hsu])
          | false => exact Or.inr (by simp [hA, applyExecution, hf, hsu])
  · exact Or.inl (by rw [syncOne_not_sent get now s hsent])

lemma applyOp_status_edge (op : CoreOp) (s : AutoTradingSignal) :
    (applyOp op s).status = s.status ∨
      validEdge s.status ((applyOp op s).status) := by
  cases op with
  | dispatch m r =>
    rcases dispatchSignal_status m r s with h | ⟨hp, h⟩
    · exact Or.inl h
    · refine Or.inr ?_
      rcases h with h | h <;> simp only [applyOp] at * <;>
        rw [hp, h] <;> trivial
  | reconcile get now =>
    rcases syncOne_status get now s with h | ⟨hsent, h⟩
    · exact Or.inl h
    · refine Or.inr ?_
      rcases h with h | h <;> simp only [applyOp] at * <;>
        rw [hsent, h] <;> trivial

lemma applyOp_rank (op : CoreOp) (s : AutoTradingSignal) :
    rank s.status ≤ rank ((applyOp op s).status) := by
  cases op with
  | dispatch m r =>
    rcases dispatchSignal_status m r s with h | ⟨hp, h⟩
    · simp only [applyOp, h]
      exact le_refl _
    · rcases h with h | h <;> simp only [applyOp, hp, h, rank] <;> omega
  | reconcile get now =>
    rcases syncOne_status get now s with h | ⟨hsent, h⟩
    · simp only [applyOp, h]
      exact le_refl _
    · rcases h with h | h <;> simp only [applyOp, hsent, h, rank] <;> omega

lemma applyOp_terminal (op : CoreOp) (s : AutoTradingSignal)
    (h : s.status = SignalStatus.EXECUTED ∨ s.status = SignalStatus.FAILED) :
    applyOp op s = s := by
  cases op with
  | dispatch m r =>
    show dispatchSignal m r s = s
    apply dispatchSignal_not_pending
    rcases h with h | h <;> simp [h]
  | reconcile get now =>
    show syncOne get now s = s
    apply syncOne_not_sent
    rcases h with h | h <;> simp [h]

lemma applySeq_cons (op : CoreOp) (ops : List CoreOp) (s : AutoTradingSignal) :
    applySeq (op :: ops) s = applySeq ops (applyOp op s) := rfl

lemma applySeq_rank (ops : List CoreOp) :
    ∀ s : AutoTradingSignal, rank s.status ≤ rank ((applySeq ops s).status) := by
  induction ops with
  | nil => intro s; exact le_refl _
  | cons op rest ih =>
    intro s
    rw [applySeq_cons]
    exact le_trans (applyOp_rank op s) (ih (applyOp op s))

lemma applySeq_terminal (ops : List CoreOp) :
    ∀ s : AutoTradingSignal,
      s.status = SignalStatus.EXECUTED ∨ s.status = SignalStatus.FAILED →
      applySeq ops s = s := by
  induction ops with
  | nil => intro s _; rfl
  | cons op rest ih =>
    intro s h
    rw [applySeq_cons, applyOp_terminal op s h]
    exact ih s h

/-- C1: over any sequence of core operations (dispatch attempts and
reconciliation passes; generation only creates fresh rows), a signal's status
never regresses along PENDING→SENT→{EXECUTED, FAILED}; once EXECUTED or
FAILED the signal never changes again; and every single-step status change is
an edge of the state machine (PENDING→SENT, PENDING→FAILED, SENT→EXECUTED,
SENT→FAILED). -/
theorem C1_forward_only_transitions (ops : List CoreOp) (s : AutoTradingSignal) :
    rank s.status ≤ rank ((applySeq ops s).status) ∧
    (s.status = SignalStatus.EXECUTED ∨ s.status = SignalStatus.FAILED →
      applySeq ops s = s) ∧
    (∀ op : CoreOp, (applyOp op s).status = s.status ∨
      validEdge s.status ((applyOp op s).status)) :=
  ⟨applySeq_rank ops s, applySeq_terminal ops s,
    fun op => applyOp_status_edge op s⟩

lemma dispatch_fail_iter (m : Nat) (msg : String) (s : AutoTradingSignal)
    (hp : s.status = SignalStatus.PENDING) :
    ∀ k, s.retry_count + k < m →
      (fun t => dispatchSignal m (DispatchResult.failure msg) t)^[k] s =
        { s with retry_count := s.retry_count + k } := by
  intro k
  induction k with
  | zero => intro _; simp
  | succ n ih =>
    intro hk
    have hlt : s.retry_count + n < m := by omega
    have hiter := ih hlt
    rw [Function.iterate_succ_apply', hiter]
    have hcond : ¬ s.retry_count + n + 1 ≥ m := by omega
    simp [dispatchSignal, hp, hcond, Nat.add_assoc]
    omega

/-- C2: if every dispatch attempt for a PENDING signal fails, then after
`m` consecutive failed attempts (the configured retry bound) the dispatcher
has moved the signal PENDING→FAILED with `error_message` populated; and a
failing dispatch attempt that exhausts the retry bound is the only core
operation that takes a signal from PENDING directly to FAILED. -/
theorem C2_dispatch_retry_exhaustion (m : Nat) (msg : String)
    (s : AutoTradingSignal) (hm : 0 < m)
    (hp : s.status = SignalStatus.PENDING) (hr : s.retry_count = 0) :
    (((fun t => dispatchSignal m (DispatchResult.failure msg) t)^[m] s).status =
        SignalStatus.FAILED ∧
      ((fun t => dispatchSignal m (DispatchResult.failure msg) t)^[m]
          s).error_message = some msg) ∧
    (∀ (op : CoreOp) (s2 : AutoTradingSignal),
      s2.status = SignalStatus.PENDING →
      (applyOp op s2).status = SignalStatus.FAILED →
      ∃ k msg2, op = CoreOp.dispatch k (DispatchResult.failure msg2) ∧
        s2.retry_count + 1 ≥ k ∧ (applyOp op s2).error_message = some msg2) := by
  constructor
  · obtain ⟨n, rfl⟩ : ∃ n, m = n + 1 := ⟨m - 1, by omega⟩
    rw [Function.iterate_succ_apply']
    rw [dispatch_fail_iter (n + 1) msg s hp n (by omega)]
    have hcond : ({ s with retry_count := s.retry_count + n } :
        AutoTradingSignal).retry_count + 1 ≥ n + 1 := by simp
    simp [dispatchSignal, hp, hcond]
  · intro op s2 hp2 hfail
    cases op with
    | dispatch k r =>
      cases r with
      | success eid =>
        exfalso
        have : (dispatchSignal k (DispatchResult.success eid) s2).status =
            SignalStatus.SENT := by simp [dispatchSignal, hp2]
        simp only [applyOp] at hfail
        rw [this] at hfail
        exact SignalStatus.noConfusion hfail
      | failure msg2 =>
        by_cases hk : s2.retry_count + 1 ≥ k
        · refine ⟨k, msg2, rfl, hk, ?_⟩
          simp [applyOp, dispatchSignal, hp2, hk]
        · exfalso
          have : (dispatchSignal k (DispatchResult.failure msg2) s2).status =
              SignalStatus.PENDING := by simp [dispatchSignal, hp2, hk]
          simp only [applyOp] at hfail
          rw [this] at hfail
          exact SignalStatus.noConfusion hfail
    | reconcile get now =>
      exfalso
      have : syncOne get now s2 = s2 :=
        syncOne_not_sent get now s2 (by rw [hp2]; exact fun h => SignalStatus.noConfusion h)
      simp only [applyOp] at hfail
      rw [this, hp2] at hfail
      exact SignalStatus.noConfusion hfail

theorem C2_dispatch_retry_exhaustion_witness :
    ((fun t => dispatchSignal 3 (DispatchResult.failure "timeout") t)^[3]
        (mkSignal 0 "AAPL" 0)).status = SignalStatus.FAILED ∧
    ((fun t => dispatchSignal 3 (DispatchResult.failure "timeout") t)^[3]
        (mkSignal 0 "AAPL" 0)).error_message = some "timeout" :=
  (C2_dispatch_retry_exhaustion 3 "timeout" (mkSignal 0 "AAPL" 0)
    (by decide) rfl rfl).1

/-- A symbol table where only "B" has a Stock row and looking up any other
symbol raises a non-DoesNotExist exception: counterexample data for C8. -/
def exLookupC8 : String → SymbolOutcome :=
  fun sym => if sym = "B" then SymbolOutcome.ok "B" else SymbolOutcome.err "boom"

/-- An ACTIVE strategy tracking ["A", "B"]: counterexample data for C8. -/
def exStratAB : AutoTradingStrategy :=
  { id := 4, status := "ACTIVE", symbols := ["A", "B"], max_daily_trades := 5,
    cooldown_seconds := 300, last_executed := none }

/-- An ACTIVE strategy tracking only ["B"]: counterexample data for C8. -/
def exStratB : AutoTradingStrategy :=
  { id := 5, status := "ACTIVE", symbols := ["B"], max_daily_trades := 5,
    cooldown_seconds := 300, last_executed := none }

/-- C8 counterexample: a per-symbol failure other than `Stock.DoesNotExist`
(here an exception while processing "A") escapes to the function-level
handler of `generate_strategy_signals` and aborts generation for the
strategy's remaining symbols: with symbols ["A", "B"] no signal is created
for "B", although "B" alone generates one. -/
theorem C8_counterexample :
    exLookupC8 "A" = SymbolOutcome.err "boom" ∧
    exLookupC8 "B" = SymbolOutcome.ok "B" ∧
    generate_strategy_signals exLookupC8 exStratAB 0 0 = [] ∧
    generate_strategy_signals exLookupC8 exStratB 0 0 = [mkSignal 0 "B" 0] := by
  refine ⟨?_, ?_, ?_, ?_⟩ <;> rfl

/-- C8 (amended): an unknown-symbol failure (`Stock.DoesNotExist`) is caught
and generation continues with the strategy's remaining symbols, and a failure
inside one strategy's processing never affects the processing of other
strategies in the same tick (each strategy is processed independently); but a
per-symbol exception other than unknown-symbol aborts generation for that
strategy's remaining symbols, the function returning only the signals
generated before it. -/
theorem C8_failure_isolation_amended :
    (∀ (lookup : String → SymbolOutcome) (now id : Nat) (sym : String)
        (rest : List String), lookup sym = SymbolOutcome.missing →
      generateGo lookup now (sym :: rest) id = generateGo lookup now rest id) ∧
    (∀ (lookup : String → SymbolOutcome)
        (cfg : Option TradingBotConfiguration)
        (sigsOf : Nat → List AutoTradingSignal) (now : Nat)
        (l1 l2 : List AutoTradingStrategy),
      process_active_strategies lookup cfg sigsOf now (l1 ++ l2) =
        process_active_strategies lookup cfg sigsOf now l1 ++
          process_active_strategies lookup cfg sigsOf now l2) ∧
    (∀ (lookup : String → SymbolOutcome) (now id : Nat) (sym msg : String)
        (rest : List String), lookup sym = SymbolOutcome.err msg →
      generateGo lookup now (sym :: rest) id = []) := by
  refine ⟨?_, ?_, ?_⟩
  · intro lookup now id sym rest h
    simp [generateGo, h]
  · intro lookup cfg sigsOf now l1 l2
    unfold process_active_strategies
    rw [List.filter_append, List.map_append]
  · intro lookup now id sym msg rest h
    simp [generateGo, h]

lemma mem_generateGo (lookup : String → SymbolOutcome) (now : Nat) :
    ∀ (syms : List String) (id : Nat) (s : AutoTradingSignal),
      s ∈ generateGo lookup now syms id →
      (∃ k, s = mkSignal k s.symbol now) ∧
        ∃ st, lookup s.symbol = SymbolOutcome.ok st := by
  intro syms
  induction syms with
  | nil => intro id s h; simp [generateGo] at h
  | cons sym rest ih =>
    intro id s h
    cases hl : lookup sym with
    | ok st =>
      simp only [generateGo, hl] at h
      rcases List.mem_cons.mp h with rfl | h2
      · exact ⟨⟨id, rfl⟩, st, hl⟩
      · exact ih (id + 1) s h2
    | missing =>
      simp only [generateGo, hl] at h
      exact ih id s h
    | err msg =>
      simp only [generateGo, hl] at h
      exact absurd h (List.not_mem_nil s)

/-- C10: every signal the generator creates is a BUY signal with confidence
HIGH, confidence_score 85.0, target_price 100.0 and quantity 10.0 —
independent of the symbol, the strategy's configuration and any market
data; for a symbol with no `Stock` row no signal is created and the symbol
is skipped; and a strategy tracking one known symbol does create exactly
that fixed signal. -/
theorem C10_fixed_signal_fields :
    (∀ (lookup : String → SymbolOutcome) (strat : AutoTradingStrategy)
        (now fresh : Nat) (s : AutoTradingSignal),
      s ∈ generate_strategy_signals lookup strat now fresh →
      s.signal_type = "BUY" ∧ s.confidence = "HIGH" ∧
        s.confidence_score = 85 ∧ s.target_price = 100 ∧ s.quantity = 10) ∧
    (∀ (lookup : String → SymbolOutcome) (strat : AutoTradingStrategy)
        (now fresh : Nat) (sym : String),
      lookup sym = SymbolOutcome.missing →
      sym ∉ (generate_strategy_signals lookup strat now fresh).map
        AutoTradingSignal.symbol) ∧
    generate_strategy_signals (fun _ => SymbolOutcome.ok "B") exStratB 7 3 =
      [mkSignal 3 "B" 7] := by
  refine ⟨?_, ?_, rfl⟩
  · intro lookup strat now fresh s hmem
    obtain ⟨⟨k, hs⟩, _⟩ :=
      mem_generateGo lookup now (strat.symbols.take 5) fresh s hmem
    rw [hs]
    simp [mkSignal]
  · intro lookup strat now fresh sym hmiss hmem
    rw [List.mem_map] at hmem
    obtain ⟨s, hs, rfl⟩ := hmem
    obtain ⟨_, st, hok⟩ :=
      mem_generateGo lookup now (strat.symbols.take 5) fresh s hs
    rw [hok] at hmiss
    exact SymbolOutcome.noConfusion hmiss
